import Mathlib

/-!
Shallow embedding of the `pygui` crate (files `src/canvas.rs`, `src/frame.rs`,
`src/macros.rs`).  Rust `f32`/`f64` scalars are modelled as `ℚ`, `i32`/`u32`
as `Int`/`ℕ`, `PyResult<T>` as `Except PyErr T`, and the graphics backend
(piston's `G2d` context) as a trace of emitted drawing operations.  A Rust
method on `&mut self` returning `PyResult<()>` becomes a Lean function
returning the post-state plus the result.
-/

namespace PyGui

/-- Rust `type Scalar = f64;` (canvas.rs line 8), modelled as `ℚ`. -/
abbrev Scalar := ℚ

/-- Rust `type Point = (Scalar, Scalar);` (canvas.rs line 9). -/
abbrev Point := Scalar × Scalar

/-- A normalized `[f32; 4]` rgba color, modelled as a 4-tuple of `ℚ`. -/
abbrev RGBA := ℚ × ℚ × ℚ × ℚ

/-- The Python error values the crate produces (`exc::ValueError`,
`exc::NotImplementedError`, `exc::RuntimeError`). -/
inductive PyErr where
  | valueError (msg : String)
  | notImplementedError (msg : String)
  | runtimeError (msg : String)
deriving DecidableEq

/-- `pub struct Color(i32, i32, i32, Option<f32>);` (canvas.rs line 12).
Raw channel values are stored unmodified; clamping happens only in
`Color.intoRGBA`. -/
structure Color where
  r : Int
  g : Int
  b : Int
  a : Option ℚ
deriving DecidableEq

/-- `impl Into<[f32; 4]> for Color` (canvas.rs lines 14-31):
each integer channel is clamped via `.min(255).max(0)` and divided by 255;
the alpha is `unwrap_or(1.0).max(0.0).min(1.0)`. -/
def Color.intoRGBA (c : Color) : RGBA :=
  let r := max (min c.r 255) 0
  let g := max (min c.g 255) 0
  let b := max (min c.b 255) 0
  let a := min (max (c.a.getD 1) 0) 1
  ((r : ℚ) / 255, (g : ℚ) / 255, (b : ℚ) / 255, a)

/-- `pub enum DrawAction` (canvas.rs lines 80-107).  A polygon's `Poly`
newtype around `Vec<[Scalar; 2]>` is flattened to `List Point`. -/
inductive DrawAction where
  | clear (color : Color)
  | point (p : Point) (color : Color)
  | image
  | circle (center : Point) (radius : Scalar) (line_color : Color)
      (line_width : Option Scalar) (fill_color : Option Color)
  | arc (center : Point) (radius : Scalar) (line_color : Color)
      (line_width : Option Scalar) (bounds : Scalar × Scalar)
  | polygon (vertices : List Point) (line_color : Color)
      (line_width : Option Scalar) (fill_color : Option Color)
  | polyline
  | line
  | text
deriving DecidableEq

/-- `pub struct Canvas` (canvas.rs lines 110-115); the `VecDeque` is a list
whose head is the queue front, and the `PyToken` is dropped. -/
structure Canvas where
  draw_queue : List DrawAction
  size : ℕ × ℕ
deriving DecidableEq

/-- One call the rasterized backend receives (the piston `clear`,
`Rectangle::draw`, `Ellipse::draw`, `CircleArc::draw`, `Polygon::draw`
and `Line::draw` invocations made by `draw_canvas`). -/
inductive RenderOp where
  | clearOp (color : RGBA)
  | rectOp (color : RGBA) (rect : Scalar × Scalar × Scalar × Scalar)
  | ellipseOp (border : RGBA) (borderWidth : Scalar) (fill : Option RGBA)
      (rect : Scalar × Scalar × Scalar × Scalar)
  | circleArcOp (color : RGBA) (width : Scalar) (start finish : Scalar)
      (rect : Scalar × Scalar × Scalar × Scalar)
  | polygonFillOp (color : RGBA) (vertices : List Point)
  | lineOp (color : RGBA) (width : Scalar)
      (seg : Scalar × Scalar × Scalar × Scalar)
deriving DecidableEq

/-- piston `rectangle::square(x, y, size)` = `[x, y, size, size]`. -/
def rectSquare (x y size : Scalar) : Scalar × Scalar × Scalar × Scalar :=
  (x, y, size, size)

/-- piston `ellipse::circle(x, y, r)` = `[x - r, y - r, 2r, 2r]`. -/
def circleRect (x y r : Scalar) : Scalar × Scalar × Scalar × Scalar :=
  (x - r, y - r, 2 * r, 2 * r)

/-- The edge-stroking loop of the `Polygon` arm (canvas.rs lines 196-207):
for each index `i` in the given list, stroke the segment from `slice[i]` to
`slice[(i + 1) % slice.len()]`.  Rust slice indexing panics out of bounds,
so a failed lookup is `none`. -/
def edgesFrom (verts : List Point) (col : RGBA) (w : Scalar) :
    List ℕ → Option (List RenderOp)
  | [] => some []
  | i :: is => do
      let p1 ← verts.get? i
      let p2 ← verts.get? ((i + 1) % verts.length)
      let rest ← edgesFrom verts col w is
      some (RenderOp.lineOp col w (p1.1, p1.2, p2.1, p2.2) :: rest)

/-- All polygon edge strokes, `for i in 0..slice.len()`. -/
def polyEdges (verts : List Point) (col : RGBA) (w : Scalar) :
    Option (List RenderOp) :=
  edgesFrom verts col w (List.range verts.length)

/-- The dispatch of one queued command inside `draw_canvas`
(canvas.rs lines 137-210).  `Image` has an empty TODO arm and
`Polyline`/`Line`/`Text` fall to the `_ => ()` arm: all four emit nothing. -/
def renderAction : DrawAction → Option (List RenderOp)
  | .clear color => some [.clearOp color.intoRGBA]
  | .point p color => some [.rectOp color.intoRGBA (rectSquare p.1 p.2 1)]
  | .image => some []
  | .circle center radius lc lw fc =>
      some [.ellipseOp lc.intoRGBA (lw.getD 1) (fc.map Color.intoRGBA)
        (circleRect center.1 center.2 radius)]
  | .arc center radius lc lw bounds =>
      some [.circleArcOp lc.intoRGBA (lw.getD 1) bounds.1 bounds.2
        (circleRect center.1 center.2 radius)]
  | .polygon verts lc lw fc => do
      let fill := match fc with
        | some f => [RenderOp.polygonFillOp f.intoRGBA verts]
        | none => []
      let edges ← polyEdges verts lc.intoRGBA (lw.getD 1)
      some (fill ++ edges)
  | .polyline => some []
  | .line => some []
  | .text => some []

/-- The `while let Some(d) = self.draw_queue.pop_front()` loop of
`draw_canvas`: drain the queue front to back, concatenating each command's
emitted operations. -/
def drainQueue : List DrawAction → Option (List RenderOp)
  | [] => some []
  | d :: rest => do
      let ops ← renderAction d
      let more ← drainQueue rest
      some (ops ++ more)

/-- `Canvas::draw_canvas` (canvas.rs lines 133-212): unconditionally clear
to opaque black, then drain the queue.  Returns the emitted operation trace
and the post-state (queue emptied by the `pop_front` loop); `none` models a
rasterizer panic. -/
def draw_canvas (c : Canvas) : Option (List RenderOp × Canvas) :=
  (drainQueue c.draw_queue).map fun ops =>
    (RenderOp.clearOp (0, 0, 0, 1) :: ops, { c with draw_queue := [] })

/-- `Canvas::update_size` (canvas.rs lines 128-130). -/
def Canvas.update_size (c : Canvas) (size : ℕ × ℕ) : Canvas :=
  { c with size := size }

/-- `Canvas::get_size` (canvas.rs lines 218-220). -/
def Canvas.get_size (c : Canvas) : Except PyErr (ℕ × ℕ) :=
  .ok c.size

/-- `Canvas::clear` (canvas.rs lines 223-226): push a `Clear` command. -/
def Canvas.clear (c : Canvas) (color : Color) : Canvas × Except PyErr Unit :=
  ({ c with draw_queue := c.draw_queue ++ [.clear color] }, .ok ())

/-- `Canvas::draw_point` (canvas.rs lines 229-232). -/
def Canvas.draw_point (c : Canvas) (p : Point) (color : Color) :
    Canvas × Except PyErr Unit :=
  ({ c with draw_queue := c.draw_queue ++ [.point p color] }, .ok ())

/-- `Canvas::draw_image` (canvas.rs lines 235-237): always fails. -/
def Canvas.draw_image (c : Canvas) : Canvas × Except PyErr Unit :=
  (c, .error (.notImplementedError "draw_image is not yet implemented"))

/-- `Canvas::draw_circle` (canvas.rs lines 240-254). -/
def Canvas.draw_circle (c : Canvas) (center : Point) (radius : Scalar)
    (line_color : Color) (line_width : Option Scalar)
    (fill_color : Option Color) : Canvas × Except PyErr Unit :=
  ({ c with draw_queue :=
      c.draw_queue ++ [.circle center radius line_color line_width fill_color] },
   .ok ())

/-- `Canvas::draw_arc` (canvas.rs lines 257-271). -/
def Canvas.draw_arc (c : Canvas) (center : Point) (radius : Scalar)
    (bounds : Scalar × Scalar) (line_color : Color)
    (line_width : Option Scalar) : Canvas × Except PyErr Unit :=
  ({ c with draw_queue :=
      c.draw_queue ++ [.arc center radius line_color line_width bounds] },
   .ok ())

/-- `Canvas::draw_polygon` (canvas.rs lines 274-291) with the
`assert_pyval!` macro (macros.rs): reject fewer than 3 vertices with a
`ValueError` carrying the actual count, leaving the queue untouched. -/
def Canvas.draw_polygon (c : Canvas) (vertices : List Point)
    (line_color : Color) (line_width : Option Scalar)
    (fill_color : Option Color) : Canvas × Except PyErr Unit :=
  if vertices.length ≥ 3 then
    ({ c with draw_queue :=
        c.draw_queue ++ [.polygon vertices line_color line_width fill_color] },
     .ok ())
  else
    (c, .error (.valueError
      ("Polygon must have 3 or more vertices, got " ++ toString vertices.length)))

/-- One successful-or-failing call to a `Canvas` enqueue method
(`clear`, `draw_point`, `draw_circle`, `draw_arc`, `draw_polygon`). -/
inductive EnqueueCall where
  | clear (color : Color)
  | point (p : Point) (color : Color)
  | circle (center : Point) (radius : Scalar) (line_color : Color)
      (line_width : Option Scalar) (fill_color : Option Color)
  | arc (center : Point) (radius : Scalar) (bounds : Scalar × Scalar)
      (line_color : Color) (line_width : Option Scalar)
  | polygon (vertices : List Point) (line_color : Color)
      (line_width : Option Scalar) (fill_color : Option Color)
deriving DecidableEq

/-- Dispatch an `EnqueueCall` to the corresponding `Canvas` method. -/
def applyCall (c : Canvas) : EnqueueCall → Canvas × Except PyErr Unit
  | .clear color => c.clear color
  | .point p color => c.draw_point p color
  | .circle center radius lc lw fc => c.draw_circle center radius lc lw fc
  | .arc center radius bounds lc lw => c.draw_arc center radius bounds lc lw
  | .polygon verts lc lw fc => c.draw_polygon verts lc lw fc

/-- The `DrawAction` a successful `EnqueueCall` appends. -/
def callAction : EnqueueCall → DrawAction
  | .clear color => .clear color
  | .point p color => .point p color
  | .circle center radius lc lw fc => .circle center radius lc lw fc
  | .arc center radius bounds lc lw => .arc center radius lc lw bounds
  | .polygon verts lc lw fc => .polygon verts lc lw fc

/-- Run a sequence of enqueue calls, stopping at the first failure. -/
def applyCalls (c : Canvas) : List EnqueueCall → Canvas × Except PyErr Unit
  | [] => (c, .ok ())
  | k :: rest =>
      match applyCall c k with
      | (c', .ok _) => applyCalls c' rest
      | (c', .error e) => (c', .error e)

/-- The observable state of the platform window (glfw through piston),
restricted to what the modelled `Frame` methods read or write. -/
structure WindowState where
  size : ℕ × ℕ
  position : Int × Int
  fullscreen : Option (ℕ × ℕ × ℕ)
deriving DecidableEq

/-- A glfw video mode (`monitor.get_video_mode()`). -/
structure VideoMode where
  width : ℕ
  height : ℕ
  refresh_rate : ℕ
deriving DecidableEq

/-- The embedder's draw callback: given the current tick index and the
shared canvas, it mutates the canvas and either returns normally or raises
a Python error. -/
abbrev Handler := ℕ → Canvas → Canvas × Except PyErr Unit

/-- `pub struct Frame` (frame.rs lines 16-24), minus the `PyToken`. -/
structure Frame where
  window : WindowState
  canvas : Canvas
  draw_handler : Option Handler
  event_handler : Option Handler
  started : Bool

/-- One event pulled from `self.window.next()`: either a render tick
(`e.render_args()` is `Some`) or any other platform event. -/
inductive FrameEvent where
  | render
  | other
deriving DecidableEq

/-- The `while let Some(e) = self.window.next()` loop of `Frame::start`
(frame.rs lines 37-68).  On a render event: push the window size into the
canvas, call the draw handler if registered (aborting with its error if it
raises), then draw the canvas, collecting each tick's emitted operations.
`none` models a rasterizer panic. -/
def startLoop (f : Frame) (tick : ℕ) :
    List FrameEvent → Option (Frame × List (List RenderOp) × Except PyErr Unit)
  | [] => some (f, [], .ok ())
  | .other :: rest => startLoop f tick rest
  | .render :: rest =>
      let f1 := { f with canvas := f.canvas.update_size f.window.size }
      match f1.draw_handler with
      | none => do
          let (ops, c') ← draw_canvas f1.canvas
          let (f3, traces, r) ← startLoop { f1 with canvas := c' } (tick + 1) rest
          some (f3, ops :: traces, r)
      | some h =>
          let (c2, res) := h tick f1.canvas
          let f2 := { f1 with canvas := c2 }
          match res with
          | .error e => some (f2, [], .error e)
          | .ok _ => do
              let (ops, c') ← draw_canvas f2.canvas
              let (f3, traces, r) ←
                startLoop { f2 with canvas := c' } (tick + 1) rest
              some (f3, ops :: traces, r)

/-- `Frame::start` (frame.rs lines 30-71): fail if already started,
otherwise latch `started` and run the event loop to completion. -/
def Frame.start (f : Frame) (events : List FrameEvent) :
    Option (Frame × List (List RenderOp) × Except PyErr Unit) :=
  if f.started then
    some (f, [], .error (.runtimeError "The frame can only be started once"))
  else
    startLoop { f with started := true } 0 events

/-- `Frame::set_size` (frame.rs lines 125-132): validate both components
strictly positive (note the source formats `size.0` into both messages),
then apply the `as u32` cast and set the window size. -/
def Frame.set_size (f : Frame) (size : Int × Int) :
    Frame × Except PyErr Unit :=
  if size.1 > 0 then
    if size.2 > 0 then
      ({ f with window :=
          { f.window with size := (size.1.toNat, size.2.toNat) } }, .ok ())
    else
      (f, .error (.valueError ("Height must be > 0, got " ++ toString size.1)))
  else
    (f, .error (.valueError ("Width must be > 0, got " ++ toString size.1)))

/-- `Frame::set_position` (frame.rs lines 144-147): a direct pass-through
to `window.set_position` with no validation. -/
def Frame.set_position (f : Frame) (pos : Int × Int) :
    Frame × Except PyErr Unit :=
  ({ f with window := { f.window with position := pos } }, .ok ())

/-- `Frame::set_fullscreen` (frame.rs lines 214-240): validate both
resolution components strictly positive when a resolution is given, then
switch the monitor to fullscreen at `(res.0 as u32, res.0 as u32)` — the
width twice — or at the video mode's resolution when none is given. -/
def Frame.set_fullscreen (f : Frame) (mode : VideoMode)
    (resolution : Option (Int × Int)) : Frame × Except PyErr Unit :=
  match resolution with
  | some res =>
      if res.1 > 0 then
        if res.2 > 0 then
          let applied := some (res.1.toNat, res.1.toNat, mode.refresh_rate)
          ({ f with window := { f.window with fullscreen := applied } }, .ok ())
        else
          (f, .error (.valueError
            ("Resolution height must be > 0, got " ++ toString res.2)))
      else
        (f, .error (.valueError
          ("Resolution width must be > 0, got " ++ toString res.1)))
  | none =>
      let applied := some (mode.width, mode.height, mode.refresh_rate)
      ({ f with window := { f.window with fullscreen := applied } }, .ok ())

/-! ### Helper lemmas -/

/-- The edge stroke the polygon loop emits for index `i`. -/
def edgeOp (verts : List Point) (col : RGBA) (w : Scalar) (i : ℕ) : RenderOp :=
  let p1 := verts.getD i (0, 0)
  let p2 := verts.getD ((i + 1) % verts.length) (0, 0)
  .lineOp col w (p1.1, p1.2, p2.1, p2.2)

lemma get?_eq_some_getD {α : Type} (l : List α) (i : ℕ) (d : α)
    (h : i < l.length) : l.get? i = some (l.getD i d) := by
  rw [List.getD_eq_getElem l d h]
  exact List.get?_eq_get h

lemma edgesFrom_eq_map (verts : List Point) (col : RGBA) (w : Scalar)
    (is : List ℕ) (h : ∀ i ∈ is, i < verts.length) :
    edgesFrom verts col w is = some (is.map (edgeOp verts col w)) := by
  induction is with
  | nil => rfl
  | cons i is ih =>
      have hi : i < verts.length := h i (List.mem_cons_self i is)
      have hpos : 0 < verts.length := Nat.lt_of_le_of_lt (Nat.zero_le i) hi
      have hi2 : (i + 1) % verts.length < verts.length := Nat.mod_lt _ hpos
      have h1 := get?_eq_some_getD verts i (0, 0) hi
      have h2 := get?_eq_some_getD verts ((i + 1) % verts.length) (0, 0) hi2
      have ih' := ih fun j hj => h j (List.mem_cons_of_mem i hj)
      simp only [edgesFrom, h1, h2, ih', Option.bind_eq_bind, Option.some_bind,
        List.map_cons]
      rfl

lemma polyEdges_eq_map (verts : List Point) (col : RGBA) (w : Scalar) :
    polyEdges verts col w =
      some ((List.range verts.length).map (edgeOp verts col w)) :=
  edgesFrom_eq_map verts col w (List.range verts.length)
    fun _ hi => List.mem_range.mp hi

lemma renderAction_polygon_eq (verts : List Point) (lc : Color)
    (lw : Option Scalar) (fc : Option Color) :
    renderAction (.polygon verts lc lw fc) =
      some ((match fc with
        | some f => [RenderOp.polygonFillOp f.intoRGBA verts]
        | none => []) ++
        (List.range verts.length).map (edgeOp verts lc.intoRGBA (lw.getD 1))) := by
  simp only [renderAction, polyEdges_eq_map, Option.bind_eq_bind,
    Option.some_bind]

lemma renderAction_eq_some (d : DrawAction) : ∃ ops, renderAction d = some ops := by
  cases d with
  | polygon verts lc lw fc => exact ⟨_, renderAction_polygon_eq verts lc lw fc⟩
  | _ => exact ⟨_, rfl⟩

lemma drainQueue_eq_some (q : List DrawAction) : ∃ ops, drainQueue q = some ops := by
  induction q with
  | nil => exact ⟨[], rfl⟩
  | cons d rest ih =>
      obtain ⟨ops, hops⟩ := renderAction_eq_some d
      obtain ⟨more, hmore⟩ := ih
      exact ⟨ops ++ more, by simp [drainQueue, hops, hmore]⟩

lemma drainQueue_append (q₁ q₂ : List DrawAction) (o₁ o₂ : List RenderOp)
    (h₁ : drainQueue q₁ = some o₁) (h₂ : drainQueue q₂ = some o₂) :
    drainQueue (q₁ ++ q₂) = some (o₁ ++ o₂) := by
  induction q₁ generalizing o₁ with
  | nil =>
      simp only [drainQueue] at h₁
      cases h₁
      simpa using h₂
  | cons d rest ih =>
      simp only [drainQueue, Option.bind_eq_bind] at h₁
      obtain ⟨ops, hops⟩ := renderAction_eq_some d
      rw [hops, Option.some_bind] at h₁
      obtain ⟨more, hmore⟩ := drainQueue_eq_some rest
      rw [hmore, Option.some_bind, Option.some_inj] at h₁
      subst h₁
      rw [List.cons_append]
      simp only [drainQueue, Option.bind_eq_bind, hops, Option.some_bind]
      rw [ih more hmore, Option.some_bind, List.append_assoc]

lemma applyCall_ok (c c' : Canvas) (k : EnqueueCall) (u : Unit)
    (h : applyCall c k = (c', .ok u)) :
    c' = { c with draw_queue := c.draw_queue ++ [callAction k] } := by
  cases k with
  | clear color =>
      simpa [applyCall, Canvas.clear, callAction] using (congrArg Prod.fst h).symm
  | point p color =>
      simpa [applyCall, Canvas.draw_point, callAction] using
        (congrArg Prod.fst h).symm
  | circle center radius lc lw fc =>
      simpa [applyCall, Canvas.draw_circle, callAction] using
        (congrArg Prod.fst h).symm
  | arc center radius bounds lc lw =>
      simpa [applyCall, Canvas.draw_arc, callAction] using
        (congrArg Prod.fst h).symm
  | polygon verts lc lw fc =>
      simp only [applyCall, Canvas.draw_polygon] at h
      split at h
      · simpa [callAction] using (congrArg Prod.fst h).symm
      · exact absurd (congrArg Prod.snd h) (by simp)

lemma applyCalls_ok (ks : List EnqueueCall) (c c' : Canvas) (u : Unit)
    (h : applyCalls c ks = (c', .ok u)) :
    c' = { c with draw_queue := c.draw_queue ++ ks.map callAction } := by
  induction ks generalizing c with
  | nil =>
      simp only [applyCalls] at h
      cases h
      simp
  | cons k rest ih =>
      simp only [applyCalls] at h
      split at h
      · rename_i c₁ u₁ heq
        have hc₁ := applyCall_ok c c₁ k u₁ heq
        subst hc₁
        simpa [List.append_assoc] using ih _ h
      · cases h

lemma startLoop_started (evs : List FrameEvent) :
    ∀ f t f' tr r, startLoop f t evs = some (f', tr, r) →
      f'.started = f.started := by
  induction evs with
  | nil =>
      intro f t f' tr r h
      simp only [startLoop, Option.some_inj] at h
      injection h with h1 h2
      injection h2 with h2 h3
      subst h1
      rfl
  | cons e rest ih =>
      intro f t f' tr r h
      cases e with
      | other =>
          simp only [startLoop] at h
          exact ih f t f' tr r h
      | render =>
          simp only [startLoop, Option.bind_eq_bind] at h
          cases hdh : f.draw_handler with
          | none =>
              simp only [hdh] at h
              obtain ⟨⟨ops, c'⟩, hdc, h⟩ := Option.bind_eq_some.mp h
              obtain ⟨⟨f3, tr3, r3⟩, hsl, h⟩ := Option.bind_eq_some.mp h
              simp only [Option.some_inj] at h
              injection h with h1 h2
              subst h1
              have hs := ih _ (t + 1) f3 tr3 r3 hsl
              exact hs
          | some hd =>
              simp only [hdh] at h
              cases hcall : hd t (f.canvas.update_size f.window.size) with
              | mk c₂ res =>
                  simp only [hcall] at h
                  cases res with
                  | error e =>
                      simp only [Option.some_inj] at h
                      injection h with h1 h2
                      subst h1
                      rfl
                  | ok u =>
                      obtain ⟨⟨ops, c'⟩, hdc, h⟩ := Option.bind_eq_some.mp h
                      obtain ⟨⟨f3, tr3, r3⟩, hsl, h⟩ := Option.bind_eq_some.mp h
                      simp only [Option.some_inj] at h
                      injection h with h1 h2
                      subst h1
                      have hs := ih _ (t + 1) f3 tr3 r3 hsl
                      exact hs

/-! ### Demo values used by witnesses -/

def demoColor : Color := ⟨255, 0, 0, none⟩

def demoCanvas : Canvas := { draw_queue := [], size := (0, 0) }

def demoCalls : List EnqueueCall :=
  [.clear demoColor, .point (1, 2) demoColor,
   .polygon [(0, 0), (2, 0), (0, 2)] demoColor none none]

def demoFrame : Frame :=
  { window := { size := (100, 100), position := (1, 1), fullscreen := none },
    canvas := demoCanvas, draw_handler := none, event_handler := none,
    started := false }

def demoErrHandler : Handler := fun _ c => (c, .error (.runtimeError "boom"))

/-! ### Claim theorems -/

/-- C1: for every sequence of successful enqueue calls on a fresh canvas,
the queue holds exactly the enqueued commands in call order, and render
drains them front to back leaving the queue empty. -/
theorem enqueue_order_eq_render_order (c₀ c : Canvas) (ks : List EnqueueCall)
    (u : Unit) (h0 : c₀.draw_queue = []) (h : applyCalls c₀ ks = (c, .ok u)) :
    c.draw_queue = ks.map callAction ∧
    ∃ ops, drainQueue (ks.map callAction) = some ops ∧
      draw_canvas c = some (RenderOp.clearOp (0, 0, 0, 1) :: ops,
        { draw_queue := [], size := c.size }) := by
  have hc := applyCalls_ok ks c₀ c u h
  subst hc
  refine ⟨by simp [h0], ?_⟩
  obtain ⟨ops, hops⟩ := drainQueue_eq_some (ks.map callAction)
  refine ⟨ops, hops, ?_⟩
  simp [draw_canvas, h0, hops]

/-- Witness for C1 at a concrete three-call sequence. -/
theorem enqueue_order_eq_render_order_witness :
    (applyCalls demoCanvas demoCalls).1.draw_queue = demoCalls.map callAction :=
  (enqueue_order_eq_render_order demoCanvas (applyCalls demoCanvas demoCalls).1
    demoCalls () rfl rfl).1

/-- C2: render always emits the hard-coded opaque-black full clear first,
even on an empty queue, and an embedder-queued `Clear` additionally
executes in its queue position. -/
theorem render_clears_black_first (c : Canvas) :
    (∃ ops, draw_canvas c =
      some (RenderOp.clearOp (0, 0, 0, 1) :: ops, { c with draw_queue := [] })) ∧
    draw_canvas { draw_queue := [], size := c.size } =
      some ([RenderOp.clearOp (0, 0, 0, 1)], { draw_queue := [], size := c.size }) ∧
    ∀ q₁ q₂ col, ∃ o₁ o₂, drainQueue q₁ = some o₁ ∧ drainQueue q₂ = some o₂ ∧
      drainQueue (q₁ ++ DrawAction.clear col :: q₂) =
        some (o₁ ++ RenderOp.clearOp col.intoRGBA :: o₂) := by
  refine ⟨?_, by simp [draw_canvas, drainQueue], ?_⟩
  · obtain ⟨ops, hops⟩ := drainQueue_eq_some c.draw_queue
    exact ⟨ops, by simp [draw_canvas, hops]⟩
  · intro q₁ q₂ col
    obtain ⟨o₁, h₁⟩ := drainQueue_eq_some q₁
    obtain ⟨o₂, h₂⟩ := drainQueue_eq_some q₂
    have hm : drainQueue (DrawAction.clear col :: q₂) =
        some (RenderOp.clearOp col.intoRGBA :: o₂) := by
      simp [drainQueue, renderAction, h₂]
    exact ⟨o₁, o₂, h₁, h₂,
      drainQueue_append q₁ (DrawAction.clear col :: q₂) o₁ _ h₁ hm⟩

lemma channel_clamp (n : Int) :
    (0 ≤ ((max (min n 255) 0 : Int) : ℚ) / 255 ∧
      ((max (min n 255) 0 : Int) : ℚ) / 255 ≤ 1) ∧
    (n < 0 → ((max (min n 255) 0 : Int) : ℚ) / 255 = 0) ∧
    (255 < n → ((max (min n 255) 0 : Int) : ℚ) / 255 = 1) ∧
    (0 ≤ n → n ≤ 255 → ((max (min n 255) 0 : Int) : ℚ) / 255 = (n : ℚ) / 255) := by
  refine ⟨⟨?_, ?_⟩, fun h => ?_, fun h => ?_, fun h1 h2 => ?_⟩
  · have h0 : (0 : Int) ≤ max (min n 255) 0 := le_max_right _ _
    exact div_nonneg (by exact_mod_cast h0) (by norm_num)
  · have h255 : max (min n 255) 0 ≤ (255 : Int) := by omega
    rw [div_le_one (by norm_num)]
    exact_mod_cast h255
  · have : max (min n 255) 0 = (0 : Int) := by omega
    rw [this]
    norm_num
  · have : max (min n 255) 0 = (255 : Int) := by omega
    rw [this]
    norm_num
  · have : max (min n 255) 0 = n := by omega
    rw [this]

/-- C3: converting a `Color` to normalized rgba clamps each integer channel
independently into [0, 255] before dividing by 255, clamps a present alpha
into [0, 1], substitutes 1 for a missing alpha, and construction stores raw
values unmodified. -/
theorem color_intoRGBA_clamps (c : Color) :
    ((0 ≤ c.intoRGBA.1 ∧ c.intoRGBA.1 ≤ 1) ∧
      (c.r < 0 → c.intoRGBA.1 = 0) ∧ (255 < c.r → c.intoRGBA.1 = 1) ∧
      (0 ≤ c.r → c.r ≤ 255 → c.intoRGBA.1 = (c.r : ℚ) / 255)) ∧
    ((0 ≤ c.intoRGBA.2.1 ∧ c.intoRGBA.2.1 ≤ 1) ∧
      (c.g < 0 → c.intoRGBA.2.1 = 0) ∧ (255 < c.g → c.intoRGBA.2.1 = 1) ∧
      (0 ≤ c.g → c.g ≤ 255 → c.intoRGBA.2.1 = (c.g : ℚ) / 255)) ∧
    ((0 ≤ c.intoRGBA.2.2.1 ∧ c.intoRGBA.2.2.1 ≤ 1) ∧
      (c.b < 0 → c.intoRGBA.2.2.1 = 0) ∧ (255 < c.b → c.intoRGBA.2.2.1 = 1) ∧
      (0 ≤ c.b → c.b ≤ 255 → c.intoRGBA.2.2.1 = (c.b : ℚ) / 255)) ∧
    ((c.a = none → c.intoRGBA.2.2.2 = 1) ∧
      (0 ≤ c.intoRGBA.2.2.2 ∧ c.intoRGBA.2.2.2 ≤ 1) ∧
      (∀ x, c.a = some x → x < 0 → c.intoRGBA.2.2.2 = 0) ∧
      (∀ x, c.a = some x → 1 < x → c.intoRGBA.2.2.2 = 1) ∧
      (∀ x, c.a = some x → 0 ≤ x → x ≤ 1 → c.intoRGBA.2.2.2 = x) ∧
      ∀ r g b a, (Color.mk r g b a).r = r ∧ (Color.mk r g b a).g = g ∧
        (Color.mk r g b a).b = b ∧ (Color.mk r g b a).a = a) := by
  have hr := channel_clamp c.r
  have hg := channel_clamp c.g
  have hb := channel_clamp c.b
  refine ⟨hr, hg, hb, ?_, ⟨?_, ?_⟩, ?_, ?_, ?_, fun r g b a => ⟨rfl, rfl, rfl, rfl⟩⟩
  · intro h
    show min (max (c.a.getD 1) 0) 1 = 1
    rw [h]
    norm_num
  · show (0 : ℚ) ≤ min (max (c.a.getD 1) 0) 1
    exact le_min (le_max_right _ _) (by norm_num)
  · show min (max (c.a.getD 1) 0) 1 ≤ 1
    exact min_le_right _ _
  · intro x hx hneg
    show min (max (c.a.getD 1) 0) 1 = 0
    rw [hx]
    simp only [Option.getD_some]
    rw [max_eq_right hneg.le, min_eq_left (by norm_num)]
  · intro x hx hgt
    show min (max (c.a.getD 1) 0) 1 = 1
    rw [hx]
    simp only [Option.getD_some]
    rw [max_eq_left (by linarith), min_eq_right (by linarith)]
  · intro x hx h0 h1
    show min (max (c.a.getD 1) 0) 1 = x
    rw [hx]
    simp only [Option.getD_some]
    rw [max_eq_left h0, min_eq_left h1]

/-- Witness for C3 at the concrete color (300, -7, 100, alpha 2). -/
theorem color_intoRGBA_clamps_witness :
    (Color.mk 300 (-7) 100 (some 2)).intoRGBA.1 = 1 ∧
    (Color.mk 300 (-7) 100 (some 2)).intoRGBA.2.1 = 0 ∧
    (Color.mk 300 (-7) 100 (some 2)).intoRGBA.2.2.2 = 1 := by
  have h := color_intoRGBA_clamps (Color.mk 300 (-7) 100 (some 2))
  exact ⟨h.1.2.2.1 (by norm_num), h.2.1.2.1 (by norm_num),
    h.2.2.2.2.2.2.1 2 rfl (by norm_num)⟩

/-- C4: `draw_polygon` rejects fewer than 3 vertices with a `ValueError`
whose message carries the actual count and leaves the canvas untouched;
with 3 or more vertices it appends exactly one `Polygon` command. -/
theorem draw_polygon_validates (c : Canvas) (verts : List Point) (lc : Color)
    (lw : Option Scalar) (fc : Option Color) :
    (verts.length < 3 →
      Canvas.draw_polygon c verts lc lw fc =
        (c, .error (.valueError
          ("Polygon must have 3 or more vertices, got " ++
            toString verts.length)))) ∧
    (3 ≤ verts.length →
      Canvas.draw_polygon c verts lc lw fc =
        ({ c with draw_queue := c.draw_queue ++ [.polygon verts lc lw fc] },
          .ok ())) := by
  refine ⟨fun h => ?_, fun h => ?_⟩
  · rw [Canvas.draw_polygon, if_neg (by omega)]
  · rw [Canvas.draw_polygon, if_pos (by omega)]

/-- Witness for C4 at a concrete 2-vertex list. -/
theorem draw_polygon_validates_witness :
    Canvas.draw_polygon demoCanvas [(0, 0), (1, 1)] demoColor none none =
      (demoCanvas, .error (.valueError
        ("Polygon must have 3 or more vertices, got " ++ toString (2 : ℕ)))) :=
  (draw_polygon_validates demoCanvas [(0, 0), (1, 1)] demoColor none none).1
    (by norm_num)

/-- C5: a rendered `Polygon` with `n` vertices emits the optional interior
fill first and then exactly `n` edge strokes, edge `i` running from
`vertices[i]` to `vertices[(i+1) % n]` with `line_color` and `line_width`
(defaulting to 1). -/
theorem polygon_render_fill_then_edges (verts : List Point) (lc : Color)
    (lw : Option Scalar) (fc : Option Color) :
    ∃ edges,
      renderAction (.polygon verts lc lw fc) =
        some ((match fc with
          | some f => [RenderOp.polygonFillOp f.intoRGBA verts]
          | none => []) ++ edges) ∧
      edges.length = verts.length ∧
      ∀ i, i < verts.length →
        edges.get? i = some (RenderOp.lineOp lc.intoRGBA (lw.getD 1)
          ((verts.getD i (0, 0)).1, (verts.getD i (0, 0)).2,
           (verts.getD ((i + 1) % verts.length) (0, 0)).1,
           (verts.getD ((i + 1) % verts.length) (0, 0)).2)) := by
  refine ⟨(List.range verts.length).map (edgeOp verts lc.intoRGBA (lw.getD 1)),
    renderAction_polygon_eq verts lc lw fc, by simp, ?_⟩
  intro i hi
  rw [List.get?_map, List.get?_range hi]
  simp [edgeOp]

/-- Witness for C5 at a concrete filled triangle. -/
theorem polygon_render_fill_then_edges_witness :
    ∃ edges,
      renderAction (.polygon [(0, 0), (1, 0), (0, 1)] demoColor none
          (some demoColor)) =
        some ([RenderOp.polygonFillOp demoColor.intoRGBA
          [(0, 0), (1, 0), (0, 1)]] ++ edges) ∧
      edges.length = 3 ∧
      edges.get? 0 = some (RenderOp.lineOp demoColor.intoRGBA 1 (0, 0, 1, 0)) := by
  obtain ⟨edges, h1, h2, h3⟩ := polygon_render_fill_then_edges
    [(0, 0), (1, 0), (0, 1)] demoColor none (some demoColor)
  refine ⟨edges, h1, by simpa using h2, ?_⟩
  simpa using h3 0 (by norm_num)

/-- C6 counterexample: `set_position` performs no validation, so a call
with a non-positive first component succeeds and mutates the window
position, contradicting the claim that it must fail with a
`ValidationError` and leave the state unchanged. -/
theorem set_position_unvalidated_cex :
    (Frame.set_position demoFrame (0, -5)).2 = .ok () ∧
    (Frame.set_position demoFrame (0, -5)).1.window.position = (0, -5) ∧
    demoFrame.window.position ≠ (0, -5) :=
  ⟨rfl, rfl, by decide⟩

/-- C6 amended: `set_size` with a non-positive width or height fails with a
`ValueError` and leaves the frame unchanged, and succeeds otherwise;
`set_position` never validates and always applies the given position. -/
theorem set_size_validates_set_position_passthrough (f : Frame)
    (s p : Int × Int) :
    ((s.1 ≤ 0 ∨ s.2 ≤ 0) →
      ∃ msg, Frame.set_size f s = (f, .error (.valueError msg))) ∧
    (0 < s.1 → 0 < s.2 →
      Frame.set_size f s =
        ({ f with window := { f.window with size := (s.1.toNat, s.2.toNat) } },
          .ok ())) ∧
    Frame.set_position f p =
      ({ f with window := { f.window with position := p } }, .ok ()) := by
  refine ⟨?_, ?_, rfl⟩
  · intro hle
    rw [Frame.set_size]
    by_cases h1 : s.1 > 0
    · rw [if_pos h1, if_neg (by omega)]
      exact ⟨_, rfl⟩
    · rw [if_neg h1]
      exact ⟨_, rfl⟩
  · intro h1 h2
    rw [Frame.set_size, if_pos h1, if_pos h2]

/-- Witness for the amended C6 at size (0, 5). -/
theorem set_size_validates_witness :
    ∃ msg, Frame.set_size demoFrame (0, 5) =
      (demoFrame, .error (.valueError msg)) :=
  (set_size_validates_set_position_passthrough demoFrame (0, 5) (0, 0)).1
    (Or.inl (by norm_num))

/-- C7: `start` on an already-started frame fails with the one-shot
runtime error, performs no render tick and leaves the frame unchanged;
starting a fresh frame latches `started` to true, and the loop never
resets it. -/
theorem start_one_shot (f : Frame) (evs : List FrameEvent) :
    (f.started = true →
      Frame.start f evs =
        some (f, [], .error (.runtimeError "The frame can only be started once"))) ∧
    (f.started = false → ∀ f' tr r, Frame.start f evs = some (f', tr, r) →
      f'.started = true) := by
  constructor
  · intro h
    rw [Frame.start, if_pos h]
  · intro h f' tr r hs
    rw [Frame.start, if_neg (by simp [h])] at hs
    exact startLoop_started evs _ 0 f' tr r hs

def demoStartedFrame : Frame := { demoFrame with started := true }

/-- Witness for C7: the second start of a frame fails. -/
theorem start_one_shot_witness :
    Frame.start demoStartedFrame [] =
      some (demoStartedFrame, [],
        .error (.runtimeError "The frame can only be started once")) :=
  (start_one_shot demoStartedFrame []).1 rfl

/-- C8: on a render tick whose draw-callback raises, the loop returns that
error at once: the canvas is not rendered on that tick (empty trace), the
remaining events are not processed, and the error reaches `start`'s caller
unchanged; `start` on a fresh frame runs exactly this loop. -/
theorem callback_error_aborts_loop (f : Frame) (hd : Handler) (t : ℕ)
    (rest evs : List FrameEvent) (c₂ : Canvas) (e : PyErr)
    (hdh : f.draw_handler = some hd)
    (hcall : hd t (f.canvas.update_size f.window.size) = (c₂, .error e)) :
    startLoop f t (.render :: rest) =
      some ({ f with canvas := c₂ }, [], .error e) ∧
    (f.started = false →
      Frame.start f evs = startLoop { f with started := true } 0 evs) := by
  constructor
  · simp only [startLoop, hdh, hcall]
  · intro hs
    rw [Frame.start, if_neg (by simp [hs])]

def demoHandlerFrame : Frame :=
  { demoFrame with draw_handler := some demoErrHandler, started := true }

/-- Witness for C8: a concrete erroring callback aborts the loop. -/
theorem callback_error_aborts_loop_witness :
    startLoop demoHandlerFrame 0 [.render] =
      some ({ demoHandlerFrame with canvas :=
        demoHandlerFrame.canvas.update_size demoHandlerFrame.window.size },
        [], .error (.runtimeError "boom")) :=
  (callback_error_aborts_loop demoHandlerFrame demoErrHandler 0 [] [] _ _
    rfl rfl).1

/-- C9: render is total — for every queue contents it returns (no panic in
the embedding, i.e. never `none`) with the queue emptied, and the reserved
`Image`/`Polyline`/`Line`/`Text` variants render as no-ops. -/
theorem render_never_fails (q : List DrawAction) (sz : ℕ × ℕ) :
    (∃ ops, draw_canvas { draw_queue := q, size := sz } =
      some (ops, { draw_queue := [], size := sz })) ∧
    renderAction .image = some [] ∧ renderAction .polyline = some [] ∧
    renderAction .line = some [] ∧ renderAction .text = some [] := by
  refine ⟨?_, rfl, rfl, rfl, rfl⟩
  obtain ⟨ops, hops⟩ := drainQueue_eq_some q
  exact ⟨RenderOp.clearOp (0, 0, 0, 1) :: ops, by simp [draw_canvas, hops]⟩

/-- C10: `set_fullscreen` with an explicit resolution validates both
components strictly positive, but the resolution it applies to the monitor
is `(w, w)` — the validated height is never used; a non-positive width or
height is rejected with a `ValueError`. -/
theorem set_fullscreen_applies_width_twice (f : Frame) (mode : VideoMode)
    (w h : Int) :
    (0 < w → 0 < h →
      Frame.set_fullscreen f mode (some (w, h)) =
        ({ f with window := { f.window with fullscreen := some (w.toNat, w.toNat, mode.refresh_rate) } },
          .ok ())) ∧
    (w ≤ 0 →
      Frame.set_fullscreen f mode (some (w, h)) =
        (f, .error (.valueError
          ("Resolution width must be > 0, got " ++ toString w)))) ∧
    (0 < w → h ≤ 0 →
      Frame.set_fullscreen f mode (some (w, h)) =
        (f, .error (.valueError
          ("Resolution height must be > 0, got " ++ toString h)))) := by
  refine ⟨fun h1 h2 => ?_, fun h1 => ?_, fun h1 h2 => ?_⟩
  · simp only [Frame.set_fullscreen]
    rw [if_pos h1, if_pos h2]
  · simp only [Frame.set_fullscreen]
    rw [if_neg (by omega)]
  · simp only [Frame.set_fullscreen]
    rw [if_pos h1, if_neg (by omega)]

def demoVideoMode : VideoMode := { width := 1920, height := 1080, refresh_rate := 60 }

/-- Witness for C10 at resolution (800, 600): the applied resolution is
(800, 800). -/
theorem set_fullscreen_applies_width_twice_witness :
    Frame.set_fullscreen demoFrame demoVideoMode (some (800, 600)) =
      ({ demoFrame with window := { demoFrame.window with fullscreen := some (800, 800, 60) } },
        .ok ()) :=
  (set_fullscreen_applies_width_twice demoFrame demoVideoMode 800 600).1
    (by norm_num) (by norm_num)

end PyGui
